import Mathlib

/-!
Verification of the Polsa airtime backend (Express server, `backend.js` /
extended variant with the admin surface).  The server state, the public
`POST /send-airtime` handler, and the `/admin/*` handlers are embedded as
pure Lean functions over an explicit `Ledger` state; the outcome of the
single outbound `axios.post` call is passed in as an oracle value of type
`ProviderResult`.  Each handler additionally returns the ordered list of
observable `Event`s it performed (shared-state read for the admission
check, outbound provider call with its payload), so that ordering and
short-circuit properties can be stated.
-/

namespace Polsa

/-- `ADMIN_PIN = '226688'` from the source. -/
def ADMIN_PIN : String := "226688"

/-- The default of `ADMIN_PHONE = process.env.ADMIN_PHONE || '09161041419'`. -/
def defaultAdminPhone : String := "09161041419"

/-- The hardcoded fallback of `API_KEY = process.env.API_KEY || '670...'`. -/
def apiKeyFallback : String := "67023380ece9a9561cac9b5f208907e0ab85063b"

/-- `API_KEY` as computed at startup: the environment value when it is a
non-empty (truthy) string, the hardcoded fallback otherwise.  `env = none`
models an unset environment variable. -/
def apiKeyOf (env : Option String) : String :=
  match env with
  | none => apiKeyFallback
  | some s => if s = "" then apiKeyFallback else s

/-- JS truthiness test for an optional string field of `req.body`:
`!x` is true when the field is absent (`undefined`) or the empty string. -/
def isFalsy : Option String → Bool
  | none => true
  | some s => s == ""

/-- JS `x || d` for an optional string `x` and a default string `d`:
yields `d` when `x` is absent or empty. -/
def jsOr (x : Option String) (d : String) : String :=
  match x with
  | none => d
  | some s => if s == "" then d else s

/-- JS `a || b` for two optional strings: yields `b` when `a` is absent or
empty (the result may itself be absent, as in the admin catch branch). -/
def jsOrOpt (a b : Option String) : Option String :=
  match a with
  | none => b
  | some s => if s == "" then b else some s

/-- The operator prefixes accepted by the regex `^0(70|80|81|90|91)\d\x7b8\x7d$`:
the two characters after the leading `0`. -/
def prefixOk (a b : Char) : Bool :=
  (a == '7' && b == '0') ||
  (a == '8' && (b == '0' || b == '1')) ||
  (a == '9' && (b == '0' || b == '1'))

/-- `phoneRegex.test(mobile_number)`: a leading `0`, one of the prefixes
`70|80|81|90|91`, then exactly 8 digits. -/
def phoneRegexTest (s : String) : Bool :=
  match s.data with
  | '0' :: a :: b :: rest => prefixOk a b && rest.length == 8 && rest.all Char.isDigit
  | _ => false

/-- `networkIds = ('MTN': 1, 'Glo': 2, '9mobile': 3, 'Airtel': 4)`; any other
key gives `undefined`, modelled as `none`. -/
def networkIds (n : String) : Option Nat :=
  if n == "MTN" then some 1
  else if n == "Glo" then some 2
  else if n == "9mobile" then some 3
  else if n == "Airtel" then some 4
  else none

/-- The mutable `siteState` object.  `totalAmountToday` is the extra field the
`/admin/state` handler writes onto the object before serving it. -/
structure SiteState where
  isSiteOnline : Bool
  claimLimit : Nat
  claimsToday : Nat
  totalAmountToday : Option Nat := none
  deriving Repr, DecidableEq

/-- One entry of `transactionHistory`.  `date` is an abstract timestamp
(milliseconds since epoch stands in for the ISO string). -/
structure Tx where
  date : Nat
  network : String
  mobile_number : String
  amount : Nat
  txStatus : String
  deriving Repr, DecidableEq

/-- The whole shared mutable state: `siteState` plus `transactionHistory`
(newest record first). -/
structure Ledger where
  siteState : SiteState
  transactionHistory : List Tx
  deriving Repr, DecidableEq

/-- The fields of a provider response body that the handlers read
(`data.detail`, `data.message`); `none` models an absent field or body. -/
structure ProviderData where
  detail : Option String := none
  message : Option String := none
  deriving Repr, DecidableEq

/-- Oracle for the outcome of `await axios.post(...)`: a 2xx response with a
body, a non-2xx response received (`error.response`), no response received
(`error.request`), or a failure to set the request up at all. -/
inductive ProviderResult where
  | success (data : ProviderData)
  | responseError (errStatus : Nat) (data : ProviderData)
  | noResponse
  | setupError
  deriving Repr, DecidableEq

/-- The `apiPayload` object sent to the provider.  `network` is `Option Nat`
because `networkIds[network]` is `undefined` for an unrecognized name. -/
structure ApiPayload where
  network : Option Nat
  mobile_number : String
  amount : Nat
  airtime_type : String
  Ported_number : Bool
  deriving Repr, DecidableEq

/-- Observable events of one request, in program order: a read of the shared
`siteState` for the admission check, or the outbound provider call. -/
inductive Event where
  | ledgerRead
  | providerCall (payload : ApiPayload)
  deriving Repr, DecidableEq

/-- The JSON response sent to the client: HTTP status, the `success` flag and
the optional `message` field. -/
structure HttpResponse where
  respStatus : Nat
  success : Bool
  message : Option String
  deriving Repr, DecidableEq

/-- Result of running one handler: the response, the ledger afterwards, and
the events performed, in order. -/
structure HandlerResult where
  response : HttpResponse
  ledger : Ledger
  events : List Event
  deriving Repr, DecidableEq

/-- Message of the 503 site-offline denial. -/
def offlineMsg : String := "Site is currently unavailable. Please try later."

/-- Message of the 429 quota denial. -/
def quotaMsg : String := "The daily airtime claim limit has been reached. Please try again later."

/-- Message of the 400 missing-fields validation failure. -/
def missingMsg : String := "Missing required fields: network and mobile_number."

/-- Message of the 400 phone-format validation failure. -/
def badPhoneMsg : String := "Invalid phone number format. Please provide an 11-digit Nigerian number."

/-- Message of the 500 missing-API-key configuration failure. -/
def configMsg : String := "Server configuration error. Unable to process request."

/-- Message of the 503 provider-unreachable failure. -/
def unreachableMsg : String := "Airtime provider is unreachable. Please try again later."

/-- Message of the 500 request-setup failure. -/
def internalErrMsg : String := "An internal server error occurred."

/-- Generic fallback when the provider supplies neither `detail` nor
`message`. -/
def providerFallbackMsg : String := "An error occurred with the airtime provider."

/-- The `apiPayload` built in section C of the handler: network code, the
phone number, the fixed amount 100, `airtime_type: VTU`,
`Ported_number: true`. -/
def mkPayload (nw mb : String) : ApiPayload :=
  { network := networkIds nw
    mobile_number := mb
    amount := 100
    airtime_type := "VTU"
    Ported_number := true }

/-- Section D of `POST /send-airtime`: the `axios.post` call and the
`then`/`catch` classification.  On a 2xx the claim count is incremented for
non-admin requests and a `Success` record is unshifted; on `error.response`
the upstream status and its `detail || message || fallback` are propagated;
on `error.request` a 503 unreachable response is sent; otherwise a generic
500.  Only the success branch touches the ledger. -/
def runProvider (isAdminRequest : Bool) (nw mb : String) (provider : ProviderResult)
    (now : Nat) (st : Ledger) (evs : List Event) : HandlerResult :=
  let evs2 := evs ++ [Event.providerCall (mkPayload nw mb)]
  match provider with
  | .success d =>
    { response :=
        { respStatus := 200
          success := true
          message := some (jsOr d.message "Airtime request processed successfully!") }
      ledger :=
        { siteState :=
            if isAdminRequest then st.siteState
            else { st.siteState with claimsToday := st.siteState.claimsToday + 1 }
          transactionHistory :=
            { date := now, network := nw, mobile_number := mb, amount := 100,
              txStatus := "Success" } :: st.transactionHistory }
      events := evs2 }
  | .responseError sc d =>
    { response :=
        { respStatus := sc
          success := false
          message := some (jsOr (jsOrOpt d.detail d.message) providerFallbackMsg) }
      ledger := st
      events := evs2 }
  | .noResponse =>
    { response := { respStatus := 503, success := false, message := some unreachableMsg }
      ledger := st
      events := evs2 }
  | .setupError =>
    { response := { respStatus := 500, success := false, message := some internalErrMsg }
      ledger := st
      events := evs2 }

/-- The public `POST /send-airtime` handler.  Order as in the source: the
admin-phone test, then (non-admin only) the site-online check and the quota
check against the shared state, then the missing-fields and phone-format
validation, then the API-key configuration check, then the provider call. -/
def sendAirtime (adminPhone apiKey : String) (network mobile_number : Option String)
    (provider : ProviderResult) (now : Nat) (st : Ledger) : HandlerResult :=
  let isAdminRequest := mobile_number == some adminPhone
  if !isAdminRequest && !st.siteState.isSiteOnline then
    { response := { respStatus := 503, success := false, message := some offlineMsg }
      ledger := st, events := [.ledgerRead] }
  else if !isAdminRequest && decide (st.siteState.claimsToday ≥ st.siteState.claimLimit) then
    { response := { respStatus := 429, success := false, message := some quotaMsg }
      ledger := st, events := [.ledgerRead] }
  else
    let evs : List Event := if isAdminRequest then [] else [.ledgerRead]
    if isFalsy network || isFalsy mobile_number then
      { response := { respStatus := 400, success := false, message := some missingMsg }
        ledger := st, events := evs }
    else if !phoneRegexTest (mobile_number.getD "") then
      { response := { respStatus := 400, success := false, message := some badPhoneMsg }
        ledger := st, events := evs }
    else if apiKey == "" then
      { response := { respStatus := 500, success := false, message := some configMsg }
        ledger := st, events := evs }
    else
      runProvider isAdminRequest (network.getD "") (mobile_number.getD "") provider now st evs

/-- The same handler with the section-B configuration check removed; used to
state that the check is dead code once `API_KEY` has its fallback. -/
def sendAirtimeNoKeyCheck (adminPhone _apiKey : String) (network mobile_number : Option String)
    (provider : ProviderResult) (now : Nat) (st : Ledger) : HandlerResult :=
  let isAdminRequest := mobile_number == some adminPhone
  if !isAdminRequest && !st.siteState.isSiteOnline then
    { response := { respStatus := 503, success := false, message := some offlineMsg }
      ledger := st, events := [.ledgerRead] }
  else if !isAdminRequest && decide (st.siteState.claimsToday ≥ st.siteState.claimLimit) then
    { response := { respStatus := 429, success := false, message := some quotaMsg }
      ledger := st, events := [.ledgerRead] }
  else
    let evs : List Event := if isAdminRequest then [] else [.ledgerRead]
    if isFalsy network || isFalsy mobile_number then
      { response := { respStatus := 400, success := false, message := some missingMsg }
        ledger := st, events := evs }
    else if !phoneRegexTest (mobile_number.getD "") then
      { response := { respStatus := 400, success := false, message := some badPhoneMsg }
        ledger := st, events := evs }
    else
      runProvider isAdminRequest (network.getD "") (mobile_number.getD "") provider now st evs

/-- A request to one of the `/admin/*` routes, with the body fields each
route reads.  `state` carries the current day (for the `startsWith(today)`
filter); `sendAirtime` carries the provider oracle and a timestamp. -/
inductive AdminReq where
  | login (pin : Option String)
  | state (pin : Option String) (today : Nat)
  | history (pin : Option String)
  | toggleSite (pin : Option String)
  | setLimit (pin : Option String) (limit : Option Int)
  | resetCount (pin : Option String)
  | sendAirtime (pin : Option String) (network mobile_number : Option String)
      (provider : ProviderResult) (now : Nat)
  deriving Repr, DecidableEq

/-- The `pin` field of the request body. -/
def AdminReq.pin : AdminReq → Option String
  | .login p => p
  | .state p _ => p
  | .history p => p
  | .toggleSite p => p
  | .setLimit p _ => p
  | .resetCount p => p
  | .sendAirtime p _ _ _ _ => p

/-- Whether the request targets `/admin/login`, the one route registered
before the `verifyAdminPin` middleware. -/
def AdminReq.isLogin : AdminReq → Bool
  | .login _ => true
  | _ => false

/-- The calendar day of an abstract timestamp (stands in for taking the
`YYYY-MM-DD` part of the ISO string). -/
def dayOf (t : Nat) : Nat := t / 86400000

/-- The `/admin/state` derived read: sum of `amount` over history records
dated today whose status is `Success` or `Success (Admin)`. -/
def totalAmountOn (today : Nat) (hist : List Tx) : Nat :=
  (hist.filter fun tx =>
      dayOf tx.date == today && (tx.txStatus == "Success" || tx.txStatus == "Success (Admin)")
    ).foldl (fun sum tx => sum + tx.amount) 0

/-- The 403 response of the `verifyAdminPin` middleware. -/
def forbiddenRes (st : Ledger) : HandlerResult :=
  { response := { respStatus := 403, success := false, message := some "Invalid admin PIN." }
    ledger := st, events := [] }

/-- `/admin/login`: 200 on a matching PIN, 401 otherwise; never touches the
ledger. -/
def adminLogin (pin : Option String) (st : Ledger) : HandlerResult :=
  if pin == some ADMIN_PIN then
    { response := { respStatus := 200, success := true, message := some "Login successful." }
      ledger := st, events := [] }
  else
    { response := { respStatus := 401, success := false, message := some "Invalid PIN." }
      ledger := st, events := [] }

/-- `/admin/send-airtime`: only the missing-fields check, then the provider
call; on a 2xx a `Success (Admin)` record is unshifted and the claim count
is left alone; the catch branch maps any non-response failure to a plain
500 with a generic message and a received error response to its own status
with `detail || message` (possibly absent). -/
def adminSendAirtime (network mobile_number : Option String) (provider : ProviderResult)
    (now : Nat) (st : Ledger) : HandlerResult :=
  if isFalsy network || isFalsy mobile_number then
    { response := { respStatus := 400, success := false, message := some missingMsg }
      ledger := st, events := [] }
  else
    let nw := network.getD ""
    let mb := mobile_number.getD ""
    let evs := [Event.providerCall (mkPayload nw mb)]
    match provider with
    | .success d =>
      { response :=
          { respStatus := 200
            success := true
            message := some ("Admin send successful: " ++ jsOr d.message "Airtime request processed.") }
        ledger :=
          { siteState := st.siteState
            transactionHistory :=
              { date := now, network := nw, mobile_number := mb, amount := 100,
                txStatus := "Success (Admin)" } :: st.transactionHistory }
        events := evs }
    | .responseError sc d =>
      { response := { respStatus := sc, success := false, message := jsOrOpt d.detail d.message }
        ledger := st, events := evs }
    | .noResponse =>
      { response := { respStatus := 500, success := false, message := some "An internal error occurred." }
        ledger := st, events := evs }
    | .setupError =>
      { response := { respStatus := 500, success := false, message := some "An internal error occurred." }
        ledger := st, events := evs }

/-- Dispatch past the PIN gate: the body of each protected admin route. -/
def adminDispatch (req : AdminReq) (st : Ledger) : HandlerResult :=
  match req with
  | .login pin => adminLogin pin st
  | .state _ today =>
    let total := totalAmountOn today st.transactionHistory
    let st1 : Ledger :=
      { st with siteState := { st.siteState with totalAmountToday := some total } }
    { response := { respStatus := 200, success := true, message := none }
      ledger := st1, events := [] }
  | .history _ =>
    { response := { respStatus := 200, success := true, message := none }
      ledger := st, events := [] }
  | .toggleSite _ =>
    let st1 : Ledger :=
      { st with siteState := { st.siteState with isSiteOnline := !st.siteState.isSiteOnline } }
    { response :=
        { respStatus := 200
          success := true
          message := some (if st1.siteState.isSiteOnline then "Site is now ON." else "Site is now OFF.") }
      ledger := st1, events := [] }
  | .setLimit _ limit =>
    match limit with
    | none =>
      { response :=
          { respStatus := 400, success := false,
            message := some "Invalid limit provided. Must be a non-negative number." }
        ledger := st, events := [] }
    | some n =>
      if n < 0 then
        { response :=
            { respStatus := 400, success := false,
              message := some "Invalid limit provided. Must be a non-negative number." }
          ledger := st, events := [] }
      else
        { response :=
            { respStatus := 200, success := true,
              message := some ("Claim limit updated to " ++ toString n ++ ".") }
          ledger := { st with siteState := { st.siteState with claimLimit := n.toNat } }
          events := [] }
  | .resetCount _ =>
    { response := { respStatus := 200, success := true, message := some "Claim count has been reset." }
      ledger := { st with siteState := { st.siteState with claimsToday := 0 } }
      events := [] }
  | .sendAirtime _ nw mb provider now => adminSendAirtime nw mb provider now st

/-- The `/admin` router: `login` is registered before the `verifyAdminPin`
middleware; every other route sees the 403 gate first. -/
def adminHandle (req : AdminReq) (st : Ledger) : HandlerResult :=
  if req.isLogin then adminLogin req.pin st
  else if req.pin == some ADMIN_PIN then adminDispatch req st
  else forbiddenRes st

/-- One operation of the whole system: a public claim or an admin request. -/
inductive Op where
  | claim (network mobile_number : Option String) (provider : ProviderResult) (now : Nat)
  | admin (req : AdminReq)
  deriving Repr, DecidableEq

/-- Run one operation against the ledger. -/
def step (adminPhone apiKey : String) (op : Op) (st : Ledger) : HandlerResult :=
  match op with
  | .claim nw mb provider now => sendAirtime adminPhone apiKey nw mb provider now st
  | .admin req => adminHandle req st

/-!
Interleaving model of concurrent claims.  Node's event loop runs each
handler synchronously up to the `await axios.post(...)` and resumes it when
the provider answers, so one admissible non-admin claim decomposes into two
atomic segments: `start` (the admission check, passed or denied) and
`finish` (the post-await increment of `claimsToday`, performed with no
re-check).  A schedule is any sequence of these segments; each request's
`start` precedes its `finish` because `finish` only fires from the
`inflight` phase.  All requests are identical admissible valid claims whose
provider call succeeds.
-/

/-- Execution phase of one in-flight claim request. -/
inductive Phase where
  | pending
  | inflight
  | doneAdmitted
  | doneDenied
  deriving Repr, DecidableEq

/-- State of the concurrent system: the shared `siteState` plus each
request's phase. -/
structure ConcState where
  s : SiteState
  phases : List Phase
  deriving Repr, DecidableEq

/-- One atomic segment of request `i`: its pre-await admission check or its
post-await resumption. -/
inductive CStep where
  | start (i : Nat)
  | finish (i : Nat)
  deriving Repr, DecidableEq

/-- The pre-await segment: the site-online and quota checks of the handler,
moving the request to `inflight` when admitted and `doneDenied` when not. -/
def cstart (c : ConcState) (i : Nat) : ConcState :=
  match c.phases[i]? with
  | some .pending =>
    if !c.s.isSiteOnline then { c with phases := c.phases.set i .doneDenied }
    else if decide (c.s.claimsToday ≥ c.s.claimLimit) then
      { c with phases := c.phases.set i .doneDenied }
    else { c with phases := c.phases.set i .inflight }
  | _ => c

/-- The post-await segment on provider success: the unconditional
`siteState.claimsToday++` and completion of the request. -/
def cfinish (c : ConcState) (i : Nat) : ConcState :=
  match c.phases[i]? with
  | some .inflight =>
    { s := { c.s with claimsToday := c.s.claimsToday + 1 }
      phases := c.phases.set i .doneAdmitted }
  | _ => c

/-- Run a schedule of atomic segments. -/
def crun (c : ConcState) : List CStep → ConcState
  | [] => c
  | .start i :: rest => crun (cstart c i) rest
  | .finish i :: rest => crun (cfinish c i) rest

/-- Two pending admissible claims against a fresh ledger with
`claimLimit = 1`. -/
def c2Init : ConcState :=
  { s := { isSiteOnline := true, claimLimit := 1, claimsToday := 0 }
    phases := [.pending, .pending] }

/-- The admission decision of the spec, read off lines 174-182 of the
handler: the admin-phone bypass first, then the site-online check, then the
quota check. -/
inductive Decision where
  | adminBypass
  | siteOffline
  | quotaExceeded
  | admitted
  deriving Repr, DecidableEq

/-- The admission decision for a phone number against a snapshot of the
site state, in the order the handler performs the checks. -/
def admissionDecision (adminPhone : String) (mobile_number : Option String)
    (s : SiteState) : Decision :=
  if mobile_number == some adminPhone then .adminBypass
  else if !s.isSiteOnline then .siteOffline
  else if decide (s.claimsToday ≥ s.claimLimit) then .quotaExceeded
  else .admitted

/-- A fresh ledger with the site on and the default limit 52. -/
def onlineLedger : Ledger :=
  { siteState := { isSiteOnline := true, claimLimit := 52, claimsToday := 0 }
    transactionHistory := [] }

/-- A fresh ledger with the site switched off. -/
def offlineLedger : Ledger :=
  { siteState := { isSiteOnline := false, claimLimit := 52, claimsToday := 0 }
    transactionHistory := [] }

/-- A string accepted by the phone regex is non-empty. -/
theorem phoneRegexTest_ne_empty (s : String) (h : phoneRegexTest s = true) : s ≠ "" := by
  intro he
  rw [he] at h
  exact absurd h (by decide)

/-- `runProvider` leaves the ledger alone on every non-success outcome. -/
theorem runProvider_ledger_of_not_success (adm : Bool) (nw mb : String)
    (provider : ProviderResult) (now : Nat) (st : Ledger) (evs : List Event)
    (h : ∀ d, provider ≠ .success d) :
    (runProvider adm nw mb provider now st evs).ledger = st := by
  cases provider with
  | success d => exact absurd rfl (h d)
  | responseError sc d => rfl
  | noResponse => rfl
  | setupError => rfl

/-- `runProvider` never lowers the claim count. -/
theorem runProvider_claimsToday_le (adm : Bool) (nw mb : String)
    (provider : ProviderResult) (now : Nat) (st : Ledger) (evs : List Event) :
    st.siteState.claimsToday ≤ (runProvider adm nw mb provider now st evs).ledger.siteState.claimsToday := by
  cases provider with
  | success d =>
    cases adm with
    | false => exact Nat.le_succ _
    | true => exact Nat.le_refl _
  | responseError sc d => exact Nat.le_refl _
  | noResponse => exact Nat.le_refl _
  | setupError => exact Nat.le_refl _

/-- The provider call event, with the payload actually built, is among the
events of every `runProvider` outcome. -/
theorem runProvider_providerCall_mem (adm : Bool) (nw mb : String)
    (provider : ProviderResult) (now : Nat) (st : Ledger) (evs : List Event) :
    Event.providerCall (mkPayload nw mb) ∈ (runProvider adm nw mb provider now st evs).events := by
  cases provider <;> simp [runProvider]

/-- The public handler never lowers the claim count. -/
theorem sendAirtime_claimsToday_le (adminPhone apiKey : String)
    (network mobile_number : Option String) (provider : ProviderResult) (now : Nat)
    (st : Ledger) :
    st.siteState.claimsToday ≤
      (sendAirtime adminPhone apiKey network mobile_number provider now st).ledger.siteState.claimsToday := by
  unfold sendAirtime
  dsimp only
  split
  · exact Nat.le_refl _
  split
  · exact Nat.le_refl _
  split
  · exact Nat.le_refl _
  split
  · exact Nat.le_refl _
  split
  · exact Nat.le_refl _
  exact runProvider_claimsToday_le _ _ _ _ _ _ _

/-- Every admin operation either preserves the claim count or is a
reset-count request that zeroes it. -/
theorem adminHandle_claimsToday (req : AdminReq) (st : Ledger) :
    (adminHandle req st).ledger.siteState.claimsToday = st.siteState.claimsToday ∨
    ((∃ pin, req = .resetCount pin) ∧
      (adminHandle req st).ledger.siteState.claimsToday = 0) := by
  cases req with
  | login p =>
    left
    by_cases hp : (p == some ADMIN_PIN) = true <;>
      simp [adminHandle, adminLogin, AdminReq.isLogin, AdminReq.pin, hp]
  | state p t =>
    left
    by_cases hp : (p == some ADMIN_PIN) = true <;>
      simp [adminHandle, adminDispatch, AdminReq.isLogin, AdminReq.pin, forbiddenRes, hp]
  | history p =>
    left
    by_cases hp : (p == some ADMIN_PIN) = true <;>
      simp [adminHandle, adminDispatch, AdminReq.isLogin, AdminReq.pin, forbiddenRes, hp]
  | toggleSite p =>
    left
    by_cases hp : (p == some ADMIN_PIN) = true <;>
      simp [adminHandle, adminDispatch, AdminReq.isLogin, AdminReq.pin, forbiddenRes, hp]
  | setLimit p l =>
    left
    by_cases hp : (p == some ADMIN_PIN) = true
    · cases l with
      | none => simp [adminHandle, adminDispatch, AdminReq.isLogin, AdminReq.pin, hp]
      | some n =>
        by_cases hn : n < 0 <;>
          simp [adminHandle, adminDispatch, AdminReq.isLogin, AdminReq.pin, hp, hn]
    · simp [adminHandle, AdminReq.isLogin, AdminReq.pin, forbiddenRes, hp]
  | resetCount p =>
    by_cases hp : (p == some ADMIN_PIN) = true
    · right
      refine ⟨⟨p, rfl⟩, ?_⟩
      simp [adminHandle, adminDispatch, AdminReq.isLogin, AdminReq.pin, hp]
    · left
      simp [adminHandle, AdminReq.isLogin, AdminReq.pin, forbiddenRes, hp]
  | sendAirtime p nw mb pr now =>
    left
    by_cases hp : (p == some ADMIN_PIN) = true
    · by_cases hf : (isFalsy nw || isFalsy mb) = true <;>
        cases pr <;>
          simp [adminHandle, adminDispatch, adminSendAirtime, AdminReq.isLogin, AdminReq.pin,
            hp, hf]
    · simp [adminHandle, AdminReq.isLogin, AdminReq.pin, forbiddenRes, hp]

/-- A claim from the admin phone skips the shared-state admission read and
never changes `claimsToday`, whatever the provider outcome. -/
theorem sendAirtime_bypass (adminPhone apiKey : String) (network : Option String)
    (provider : ProviderResult) (now : Nat) (st : Ledger) :
    Event.ledgerRead ∉
      (sendAirtime adminPhone apiKey network (some adminPhone) provider now st).events ∧
    (sendAirtime adminPhone apiKey network (some adminPhone) provider now st).ledger.siteState.claimsToday
      = st.siteState.claimsToday := by
  have hb : ((some adminPhone : Option String) == some adminPhone) = true := by simp
  unfold sendAirtime
  dsimp only
  rw [hb]
  simp only [Bool.not_true, Bool.false_and, Bool.false_eq_true, if_false, if_true]
  split
  · exact ⟨by simp, rfl⟩
  split
  · exact ⟨by simp, rfl⟩
  split
  · exact ⟨by simp, rfl⟩
  cases provider <;> simp [runProvider]

/-- When the input validates, the key is set and the claim is admissible
(admin phone, or site online and under quota), the handler result is
exactly the provider stage run on the admission events. -/
theorem sendAirtime_runs_provider (adminPhone apiKey nw mb : String)
    (provider : ProviderResult) (now : Nat) (st : Ledger)
    (hnw : nw ≠ "") (hphone : phoneRegexTest mb = true) (hkey : apiKey ≠ "")
    (hadm : mb = adminPhone ∨
      (st.siteState.isSiteOnline = true ∧
        st.siteState.claimsToday < st.siteState.claimLimit)) :
    sendAirtime adminPhone apiKey (some nw) (some mb) provider now st =
      runProvider ((some mb : Option String) == some adminPhone) nw mb provider now st
        (if ((some mb : Option String) == some adminPhone) = true then []
          else [Event.ledgerRead]) := by
  have hmb : mb ≠ "" := phoneRegexTest_ne_empty mb hphone
  have hfn : isFalsy (some nw) = false := by simp [isFalsy, hnw]
  have hfm : isFalsy (some mb) = false := by simp [isFalsy, hmb]
  have hkb : (apiKey == "") = false := by simp [hkey]
  unfold sendAirtime
  dsimp only
  by_cases hb : ((some mb : Option String) == some adminPhone) = true
  · rw [hb]
    simp only [Bool.not_true, Bool.false_and, Bool.false_eq_true, if_false, if_true,
      hfn, hfm, Bool.or_self, Option.getD_some, hphone, Bool.not_true, hkb]
  · have hb' : ((some mb : Option String) == some adminPhone) = false := by
      rwa [Bool.not_eq_true] at hb
    rcases hadm with heq | ⟨ho, hq⟩
    · exact absurd (by simp [heq]) hb
    · have hqd : decide (st.siteState.claimsToday ≥ st.siteState.claimLimit) = false :=
        decide_eq_false (Nat.not_le.mpr hq)
      rw [hb']
      simp only [Bool.not_false, Bool.true_and, ho, Bool.not_true, Bool.false_eq_true,
        if_false, hqd, hfn, hfm, Bool.or_self, Option.getD_some, hphone, hkb]

/-- The handler performs a provider call exactly when the claim is
admissible (admin phone, or site online and under quota), both fields are
present, the phone number matches the format, and the API key is
non-empty: admission denials, validation failures and the configuration
failure each return before any provider call. -/
theorem sendAirtime_providerCall_iff (adminPhone apiKey : String)
    (network mobile_number : Option String) (provider : ProviderResult) (now : Nat)
    (st : Ledger) :
    (∃ pl, Event.providerCall pl ∈
        (sendAirtime adminPhone apiKey network mobile_number provider now st).events) ↔
      ((mobile_number = some adminPhone ∨
        (st.siteState.isSiteOnline = true ∧
          st.siteState.claimsToday < st.siteState.claimLimit)) ∧
       isFalsy network = false ∧ isFalsy mobile_number = false ∧
       phoneRegexTest (mobile_number.getD "") = true ∧ apiKey ≠ "") := by
  unfold sendAirtime
  dsimp only
  split
  · rename_i h
    rw [Bool.and_eq_true, Bool.not_eq_true', Bool.not_eq_true'] at h
    obtain ⟨hne, hoff⟩ := h
    rw [beq_eq_false_iff_ne] at hne
    simp [hne, hoff]
  split
  · rename_i h
    rw [Bool.and_eq_true, Bool.not_eq_true'] at h
    obtain ⟨hne, hq⟩ := h
    rw [beq_eq_false_iff_ne] at hne
    rw [decide_eq_true_eq] at hq
    simp [hne, Nat.not_lt.mpr hq]
  split
  · rename_i h
    rw [Bool.or_eq_true] at h
    constructor
    · rintro ⟨pl, hpl⟩
      split at hpl <;> simp at hpl
    · rintro ⟨-, hn, hm, -⟩
      rcases h with h | h
      · rw [hn] at h; exact absurd h (by decide)
      · rw [hm] at h; exact absurd h (by decide)
  split
  · rename_i h
    constructor
    · rintro ⟨pl, hpl⟩
      split at hpl <;> simp at hpl
    · rintro ⟨-, -, -, hp, -⟩
      rw [hp] at h
      exact absurd h (by decide)
  split
  · rename_i h
    rw [beq_iff_eq] at h
    constructor
    · rintro ⟨pl, hpl⟩
      split at hpl <;> simp at hpl
    · rintro ⟨-, -, -, -, hk⟩
      exact absurd h hk
  rename_i h1 h2 h3 h4 h5
  rw [Bool.not_eq_true, Bool.and_eq_false_iff] at h1 h2
  rw [Bool.not_eq_true, Bool.or_eq_false_iff] at h3
  rw [Bool.not_eq_true, Bool.not_eq_false'] at h4
  rw [Bool.not_eq_true, beq_eq_false_iff_ne] at h5
  constructor
  · intro hx
    refine ⟨?_, h3.1, h3.2, h4, h5⟩
    by_cases hb : (mobile_number == some adminPhone) = true
    · exact Or.inl (by rwa [beq_iff_eq] at hb)
    · rw [Bool.not_eq_true] at hb
      right
      have honline : st.siteState.isSiteOnline = true := by
        rcases h1 with h1 | h1
        · rw [Bool.not_eq_false'] at h1
          rw [h1] at hb
          exact absurd hb (by decide)
        · rwa [Bool.not_eq_false'] at h1
      have hlt : st.siteState.claimsToday < st.siteState.claimLimit := by
        rcases h2 with h2 | h2
        · rw [Bool.not_eq_false'] at h2
          rw [h2] at hb
          exact absurd hb (by decide)
        · rw [decide_eq_false_iff_not, Nat.not_le] at h2
          exact h2
      exact ⟨honline, hlt⟩
  · intro hx
    exact ⟨mkPayload (network.getD "") (mobile_number.getD ""),
      runProvider_providerCall_mem _ _ _ _ _ _ _⟩

/-- Sanity check of the interleaving model: when a request's two segments
run back-to-back with no interleaving, an online under-quota claim is
admitted and counted exactly once, matching the sequential handler. -/
theorem conc_model_sequential_agrees (s : SiteState) (hon : s.isSiteOnline = true)
    (hq : s.claimsToday < s.claimLimit) :
    (crun { s := s, phases := [.pending] } [.start 0, .finish 0]).s.claimsToday
      = s.claimsToday + 1 ∧
    (crun { s := s, phases := [.pending] } [.start 0, .finish 0]).phases =
      [Phase.doneAdmitted] := by
  have hqd : decide (s.claimsToday ≥ s.claimLimit) = false :=
    decide_eq_false (Nat.not_le.mpr hq)
  simp [crun, cstart, cfinish, hon, hqd]

/-- C2: against the claim that N concurrent admissible claims with
`claimLimit = L < N` admit exactly L and deny N - L under every
interleaving: with two concurrent claims, `claimLimit = 1`, and both
admission checks scheduled before either provider call resolves, the code
admits both requests and counts `claimsToday` up to 2. -/
theorem concurrent_claims_exceed_limit :
    (crun c2Init [.start 0, .start 1, .finish 0, .finish 1]).s.claimsToday = 2 ∧
    (crun c2Init [.start 0, .start 1, .finish 0, .finish 1]).phases =
      [Phase.doneAdmitted, Phase.doneAdmitted] := by
  decide

/-- C4 counterexample: a request with a missing `network` field sent while
the site is offline is answered 503 after the admission check has read the
ledger; the 400 validation failure is never returned, refuting that
validation errors are detected before any read of the Ledger state. -/
theorem validation_after_ledger_read_cex :
    (sendAirtime defaultAdminPhone apiKeyFallback none (some "08012345678")
        (.success {}) 0 offlineLedger).response.respStatus = 503 ∧
    (sendAirtime defaultAdminPhone apiKeyFallback none (some "08012345678")
        (.success {}) 0 offlineLedger).response.respStatus ≠ 400 ∧
    Event.ledgerRead ∈ (sendAirtime defaultAdminPhone apiKeyFallback none
        (some "08012345678") (.success {}) 0 offlineLedger).events := by
  decide

/-- C5 counterexample: a claim with network `Safaricom` and a valid phone
number passes validation (no 400 is returned) and the provider call is
made, with `networkIds` yielding no code; this refutes that an
unrecognized network fails validation with an UnknownNetwork error. -/
theorem unknown_network_reaches_provider_cex :
    (sendAirtime defaultAdminPhone apiKeyFallback (some "Safaricom") (some "08012345678")
        (.success {}) 5 onlineLedger).response.respStatus = 200 ∧
    Event.providerCall
        { network := none, mobile_number := "08012345678", amount := 100,
          airtime_type := "VTU", Ported_number := true } ∈
      (sendAirtime defaultAdminPhone apiKeyFallback (some "Safaricom") (some "08012345678")
        (.success {}) 5 onlineLedger).events := by
  decide

/-- C6 counterexample: a received 503 response with no body is classified
through the rejection branch (generic provider fallback message), not as
Unreachable: the unreachable message is not produced. -/
theorem rejected_503_no_body_cex :
    (sendAirtime defaultAdminPhone apiKeyFallback (some "MTN") (some "08012345678")
        (.responseError 503 {}) 0 onlineLedger).response.message = some providerFallbackMsg ∧
    (sendAirtime defaultAdminPhone apiKeyFallback (some "MTN") (some "08012345678")
        (.responseError 503 {}) 0 onlineLedger).response.message ≠ some unreachableMsg := by
  decide

/-- C8 counterexample: `/admin/send-airtime` performs the provider call for
a phone number the Validator's format check rejects, refuting that
adminSend runs the Validator. -/
theorem admin_send_skips_phone_validation_cex :
    phoneRegexTest "123" = false ∧
    Event.providerCall
        { network := some 1, mobile_number := "123", amount := 100,
          airtime_type := "VTU", Ported_number := true } ∈
      (adminHandle (.sendAirtime (some ADMIN_PIN) (some "MTN") (some "123")
        (.success {}) 0) onlineLedger).events ∧
    (adminHandle (.sendAirtime (some ADMIN_PIN) (some "MTN") (some "123")
        (.success {}) 0) onlineLedger).response.respStatus = 200 := by
  decide

/-- C1: a well-formed non-admin claim handled while the site is online and
under quota whose provider call succeeds increments `claimsToday` by
exactly one and unshifts the `Success` record onto the front of the log;
and across every operation of the system `claimsToday` never decreases,
except that a reset-count request sets it to 0. -/
theorem claim_increments_and_count_monotone (adminPhone apiKey nw mb : String)
    (d : ProviderData) (now : Nat) (st : Ledger)
    (hnw : nw ≠ "") (hphone : phoneRegexTest mb = true) (hkey : apiKey ≠ "")
    (hna : mb ≠ adminPhone)
    (honline : st.siteState.isSiteOnline = true)
    (hquota : st.siteState.claimsToday < st.siteState.claimLimit) :
    ((sendAirtime adminPhone apiKey (some nw) (some mb)
          (.success d) now st).ledger.siteState.claimsToday
        = st.siteState.claimsToday + 1 ∧
      (sendAirtime adminPhone apiKey (some nw) (some mb)
          (.success d) now st).ledger.transactionHistory
        = { date := now, network := nw, mobile_number := mb, amount := 100,
            txStatus := "Success" } :: st.transactionHistory) ∧
    (∀ (adminPhone2 apiKey2 : String) (op : Op) (st2 : Ledger),
      st2.siteState.claimsToday ≤
          (step adminPhone2 apiKey2 op st2).ledger.siteState.claimsToday ∨
      (∃ pin, op = .admin (.resetCount pin) ∧
        (step adminPhone2 apiKey2 op st2).ledger.siteState.claimsToday = 0)) ∧
    ∀ (st3 : Ledger),
      (adminHandle (.resetCount (some ADMIN_PIN)) st3).ledger.siteState.claimsToday = 0 := by
  refine ⟨?_, ?_, fun st3 => rfl⟩
  · have hbeq : ((some mb : Option String) == some adminPhone) = false := by
      rw [beq_eq_false_iff_ne]
      simp [hna]
    rw [sendAirtime_runs_provider adminPhone apiKey nw mb (.success d) now st hnw hphone hkey
      (Or.inr ⟨honline, hquota⟩)]
    rw [hbeq]
    simp [runProvider]
  · intro ap2 ak2 op st2
    cases op with
    | claim nw2 mb2 p2 now2 => exact Or.inl (sendAirtime_claimsToday_le _ _ _ _ _ _ _)
    | admin req =>
      rcases adminHandle_claimsToday req st2 with h | ⟨⟨pin, hpin⟩, h0⟩
      · exact Or.inl (le_of_eq h.symm)
      · exact Or.inr ⟨pin, by rw [hpin], h0⟩

/-- Witness for C1 at a concrete claim against a fresh online ledger. -/
theorem claim_increments_and_count_monotone_witness :
    (sendAirtime defaultAdminPhone apiKeyFallback (some "MTN") (some "08012345678")
        (.success {}) 0 onlineLedger).ledger.siteState.claimsToday
      = onlineLedger.siteState.claimsToday + 1 ∧
    (sendAirtime defaultAdminPhone apiKeyFallback (some "MTN") (some "08012345678")
        (.success {}) 0 onlineLedger).ledger.transactionHistory
      = { date := 0, network := "MTN", mobile_number := "08012345678", amount := 100,
          txStatus := "Success" } :: onlineLedger.transactionHistory :=
  (claim_increments_and_count_monotone defaultAdminPhone apiKeyFallback "MTN" "08012345678"
    {} 0 onlineLedger (by decide) (by decide) (by decide) (by decide) (by decide)
    (by decide)).1

/-- C3: the admission decision is taken in bypass-offline-quota order: an
admin-phone claim is allowed without any read of the shared state and
without touching `claimsToday`; otherwise an offline site denies with the
503 result; otherwise a met quota denies with the 429 result; otherwise
the claim is admitted and neither denial is produced before a provider
call. -/
theorem admission_check_order (adminPhone apiKey : String)
    (network mobile_number : Option String) (provider : ProviderResult) (now : Nat)
    (st : Ledger) :
    (admissionDecision adminPhone mobile_number st.siteState = .adminBypass ↔
      mobile_number = some adminPhone) ∧
    (mobile_number = some adminPhone →
      Event.ledgerRead ∉
        (sendAirtime adminPhone apiKey network mobile_number provider now st).events ∧
      (sendAirtime adminPhone apiKey network mobile_number
          provider now st).ledger.siteState.claimsToday
        = st.siteState.claimsToday) ∧
    (mobile_number ≠ some adminPhone → st.siteState.isSiteOnline = false →
      admissionDecision adminPhone mobile_number st.siteState = .siteOffline ∧
      sendAirtime adminPhone apiKey network mobile_number provider now st =
        { response := { respStatus := 503, success := false, message := some offlineMsg }
          ledger := st, events := [.ledgerRead] }) ∧
    (mobile_number ≠ some adminPhone → st.siteState.isSiteOnline = true →
      st.siteState.claimLimit ≤ st.siteState.claimsToday →
      admissionDecision adminPhone mobile_number st.siteState = .quotaExceeded ∧
      sendAirtime adminPhone apiKey network mobile_number provider now st =
        { response := { respStatus := 429, success := false, message := some quotaMsg }
          ledger := st, events := [.ledgerRead] }) ∧
    (mobile_number ≠ some adminPhone → st.siteState.isSiteOnline = true →
      st.siteState.claimsToday < st.siteState.claimLimit →
      admissionDecision adminPhone mobile_number st.siteState = .admitted ∧
      ((sendAirtime adminPhone apiKey network mobile_number
            provider now st).response.message ≠ some offlineMsg ∧
        (sendAirtime adminPhone apiKey network mobile_number
            provider now st).response.message ≠ some quotaMsg ∨
       ∃ pl, Event.providerCall pl ∈
         (sendAirtime adminPhone apiKey network mobile_number provider now st).events)) := by
  refine ⟨?_, ?_, ?_, ?_, ?_⟩
  · unfold admissionDecision
    by_cases hb : (mobile_number == some adminPhone) = true
    · rw [hb]
      have heq := beq_iff_eq.mp hb
      simp [heq]
    · rw [Bool.not_eq_true] at hb
      have hne : mobile_number ≠ some adminPhone := beq_eq_false_iff_ne.mp hb
      rw [hb]
      simp only [Bool.false_eq_true, if_false]
      split
      · simp [hne]
      split
      · simp [hne]
      · simp [hne]
  · intro hb
    subst hb
    exact sendAirtime_bypass adminPhone apiKey network provider now st
  · intro hne hoff
    have hbeq : (mobile_number == some adminPhone) = false := beq_eq_false_iff_ne.mpr hne
    constructor
    · unfold admissionDecision
      rw [hbeq]
      simp [hoff]
    · unfold sendAirtime
      dsimp only
      rw [hbeq, hoff]
      rfl
  · intro hne ho hq
    have hbeq : (mobile_number == some adminPhone) = false := beq_eq_false_iff_ne.mpr hne
    have hqd : decide (st.siteState.claimsToday ≥ st.siteState.claimLimit) = true :=
      decide_eq_true hq
    constructor
    · unfold admissionDecision
      rw [hbeq]
      simp [ho, hqd]
    · unfold sendAirtime
      dsimp only
      rw [hbeq, ho, hqd]
      rfl
  · intro hne ho hlt
    have hbeq : (mobile_number == some adminPhone) = false := beq_eq_false_iff_ne.mpr hne
    have hqd : decide (st.siteState.claimsToday ≥ st.siteState.claimLimit) = false :=
      decide_eq_false (Nat.not_le.mpr hlt)
    constructor
    · unfold admissionDecision
      rw [hbeq]
      simp [ho, hqd]
    · unfold sendAirtime
      dsimp only
      rw [hbeq, ho, hqd]
      simp only [Bool.not_false, Bool.true_and, Bool.not_true, Bool.false_and,
        Bool.false_eq_true, if_false]
      split
      · exact Or.inl ⟨by show some missingMsg ≠ some offlineMsg; decide,
          by show some missingMsg ≠ some quotaMsg; decide⟩
      split
      · exact Or.inl ⟨by show some badPhoneMsg ≠ some offlineMsg; decide,
          by show some badPhoneMsg ≠ some quotaMsg; decide⟩
      split
      · exact Or.inl ⟨by show some configMsg ≠ some offlineMsg; decide,
          by show some configMsg ≠ some quotaMsg; decide⟩
      · exact Or.inr ⟨mkPayload (network.getD "") (mobile_number.getD ""),
          runProvider_providerCall_mem _ _ _ _ _ _ _⟩

/-- Witness for C3: an admin-phone claim against an offline site reads no
shared state and leaves the count alone. -/
theorem admission_check_order_witness :
    Event.ledgerRead ∉ (sendAirtime defaultAdminPhone apiKeyFallback (some "MTN")
        (some defaultAdminPhone) (.success {}) 0 offlineLedger).events ∧
    (sendAirtime defaultAdminPhone apiKeyFallback (some "MTN") (some defaultAdminPhone)
        (.success {}) 0 offlineLedger).ledger.siteState.claimsToday
      = offlineLedger.siteState.claimsToday :=
  (admission_check_order defaultAdminPhone apiKeyFallback (some "MTN")
      (some defaultAdminPhone) (.success {}) 0 offlineLedger).2.1 rfl

/-- C4 (amended): validation failures, the configuration failure and
admission denials are each returned before any provider call — the
provider is called exactly when the claim is admissible, both fields are
present, the phone format matches and the API key is non-empty — but for
non-admin claims the Ledger-based admission check runs before validation,
so the Ledger is read even for malformed input; only admin-phone claims
are answered without any Ledger read. -/
theorem provider_call_short_circuit (adminPhone apiKey : String)
    (network mobile_number : Option String) (provider : ProviderResult) (now : Nat)
    (st : Ledger) :
    ((∃ pl, Event.providerCall pl ∈
        (sendAirtime adminPhone apiKey network mobile_number provider now st).events) ↔
      ((mobile_number = some adminPhone ∨
        (st.siteState.isSiteOnline = true ∧
          st.siteState.claimsToday < st.siteState.claimLimit)) ∧
       isFalsy network = false ∧ isFalsy mobile_number = false ∧
       phoneRegexTest (mobile_number.getD "") = true ∧ apiKey ≠ "")) ∧
    (mobile_number = some adminPhone →
      Event.ledgerRead ∉
        (sendAirtime adminPhone apiKey network mobile_number provider now st).events) := by
  refine ⟨sendAirtime_providerCall_iff _ _ _ _ _ _ _, ?_⟩
  intro hb
  subst hb
  exact (sendAirtime_bypass adminPhone apiKey network provider now st).1

/-- Witness for C4 (amended): a valid admissible claim does reach the
provider. -/
theorem provider_call_short_circuit_witness :
    ∃ pl, Event.providerCall pl ∈ (sendAirtime defaultAdminPhone apiKeyFallback
      (some "Airtel") (some "09011112222") .noResponse 3 onlineLedger).events :=
  (provider_call_short_circuit defaultAdminPhone apiKeyFallback (some "Airtel")
      (some "09011112222") .noResponse 3 onlineLedger).1.mpr
    ⟨Or.inr ⟨rfl, by decide⟩, by decide, by decide, by decide, by decide⟩

/-- C5 (amended): a claim whose network name is non-empty but not in the
recognized enumeration is not rejected by validation: the provider call is
made with the network code absent (`networkIds` yields none). -/
theorem unknown_network_passes_validation (adminPhone apiKey nw mb : String)
    (provider : ProviderResult) (now : Nat) (st : Ledger)
    (hnw : nw ≠ "") (hphone : phoneRegexTest mb = true) (hkey : apiKey ≠ "")
    (hunknown : networkIds nw = none)
    (hadm : mb = adminPhone ∨ (st.siteState.isSiteOnline = true ∧
      st.siteState.claimsToday < st.siteState.claimLimit)) :
    Event.providerCall
        { network := none, mobile_number := mb, amount := 100, airtime_type := "VTU",
          Ported_number := true } ∈
      (sendAirtime adminPhone apiKey (some nw) (some mb) provider now st).events := by
  rw [sendAirtime_runs_provider adminPhone apiKey nw mb provider now st hnw hphone hkey hadm]
  have h := runProvider_providerCall_mem ((some mb : Option String) == some adminPhone)
    nw mb provider now st
    (if ((some mb : Option String) == some adminPhone) = true then []
      else [Event.ledgerRead])
  simpa [mkPayload, hunknown] using h

/-- Witness for C5 (amended) at the unrecognized network name Vodafone. -/
theorem unknown_network_passes_validation_witness :
    Event.providerCall
        { network := none, mobile_number := "08123456789", amount := 100,
          airtime_type := "VTU", Ported_number := true } ∈
      (sendAirtime defaultAdminPhone apiKeyFallback (some "Vodafone") (some "08123456789")
        (.success {}) 9 onlineLedger).events :=
  unknown_network_passes_validation defaultAdminPhone apiKeyFallback "Vodafone"
    "08123456789" (.success {}) 9 onlineLedger (by decide) (by decide) (by decide)
    (by decide) (Or.inr ⟨rfl, by decide⟩)

/-- C6 (amended): for a claim that reaches the provider, the outcome is
classified four ways: a 2xx yields a 200 success carrying the provider's
message (with a generic fallback); a received non-2xx response is
propagated with the upstream's own status and its detail-or-message field
with a generic fallback — this includes a 503 response with no body, which
is NOT classified as unreachable; no response received yields the 503
unreachable result; a request that could not be set up yields a generic
500. -/
theorem provider_outcome_classification (adminPhone apiKey nw mb : String)
    (now : Nat) (st : Ledger)
    (hnw : nw ≠ "") (hphone : phoneRegexTest mb = true) (hkey : apiKey ≠ "")
    (hadm : mb = adminPhone ∨ (st.siteState.isSiteOnline = true ∧
      st.siteState.claimsToday < st.siteState.claimLimit)) :
    (∀ d, (sendAirtime adminPhone apiKey (some nw) (some mb) (.success d) now st).response =
      { respStatus := 200, success := true,
        message := some (jsOr d.message "Airtime request processed successfully!") }) ∧
    (∀ sc d, (sendAirtime adminPhone apiKey (some nw) (some mb)
        (.responseError sc d) now st).response =
      { respStatus := sc, success := false,
        message := some (jsOr (jsOrOpt d.detail d.message) providerFallbackMsg) }) ∧
    ((sendAirtime adminPhone apiKey (some nw) (some mb) .noResponse now st).response =
      { respStatus := 503, success := false, message := some unreachableMsg }) ∧
    ((sendAirtime adminPhone apiKey (some nw) (some mb) .setupError now st).response =
      { respStatus := 500, success := false, message := some internalErrMsg }) := by
  refine ⟨fun d => ?_, fun sc d => ?_, ?_, ?_⟩ <;>
    rw [sendAirtime_runs_provider adminPhone apiKey nw mb _ now st hnw hphone hkey hadm] <;>
    rfl

/-- Witness for C6 (amended): a 422 with a detail field is propagated with
that detail. -/
theorem provider_outcome_classification_witness :
    (sendAirtime defaultAdminPhone apiKeyFallback (some "9mobile") (some "07034567890")
        (.responseError 422 { detail := some "Insufficient balance.", message := none }) 4
        onlineLedger).response =
      { respStatus := 422, success := false, message := some "Insufficient balance." } := by
  have h := (provider_outcome_classification defaultAdminPhone apiKeyFallback "9mobile"
      "07034567890" 4 onlineLedger (by decide) (by decide) (by decide)
      (Or.inr ⟨rfl, by decide⟩)).2.1 422
    { detail := some "Insufficient balance.", message := none }
  simpa [jsOr, jsOrOpt] using h

/-- C8 (amended): the admin send path checks only that the two fields are
present (the phone-format validation is not run), bypasses the admission
policy entirely — no shared-state read, and the response is independent of
the site state — and on provider success unshifts a record with status
`Success (Admin)` while never changing `claimsToday`. -/
theorem admin_send_bypass_no_increment (network mobile_number : Option String)
    (provider : ProviderResult) (now : Nat) (st : Ledger) (s2 : SiteState)
    (hn : isFalsy network = false) (hm : isFalsy mobile_number = false) :
    Event.providerCall (mkPayload (network.getD "") (mobile_number.getD "")) ∈
      (adminHandle (.sendAirtime (some ADMIN_PIN) network mobile_number provider now)
        st).events ∧
    (adminHandle (.sendAirtime (some ADMIN_PIN) network mobile_number provider now)
        st).ledger.siteState = st.siteState ∧
    (∀ d, provider = .success d →
      (adminHandle (.sendAirtime (some ADMIN_PIN) network mobile_number provider now)
          st).ledger.transactionHistory
        = { date := now, network := network.getD "", mobile_number := mobile_number.getD "",
            amount := 100, txStatus := "Success (Admin)" } :: st.transactionHistory) ∧
    (adminHandle (.sendAirtime (some ADMIN_PIN) network mobile_number provider now)
        { siteState := s2, transactionHistory := st.transactionHistory }).response =
      (adminHandle (.sendAirtime (some ADMIN_PIN) network mobile_number provider now)
        st).response := by
  have hred : ∀ (l : Ledger),
      adminHandle (.sendAirtime (some ADMIN_PIN) network mobile_number provider now) l
        = adminSendAirtime network mobile_number provider now l := by
    intro l
    unfold adminHandle
    simp [AdminReq.isLogin, AdminReq.pin, adminDispatch]
  simp only [hred]
  unfold adminSendAirtime
  simp only [hn, hm, Bool.or_self, Bool.false_eq_true, if_false]
  cases provider with
  | success d =>
    refine ⟨by simp, rfl, ?_, rfl⟩
    intro d2 hd2
    cases hd2
    rfl
  | responseError sc d =>
    refine ⟨by simp, rfl, ?_, rfl⟩
    intro d2 hd2
    cases hd2
  | noResponse =>
    refine ⟨by simp, rfl, ?_, rfl⟩
    intro d2 hd2
    cases hd2
  | setupError =>
    refine ⟨by simp, rfl, ?_, rfl⟩
    intro d2 hd2
    cases hd2

/-- Witness for C8 (amended) at a concrete admin send. -/
theorem admin_send_bypass_no_increment_witness :
    Event.providerCall (mkPayload "MTN" "08011223344") ∈
      (adminHandle (.sendAirtime (some ADMIN_PIN) (some "MTN") (some "08011223344")
        (.success {}) 11) onlineLedger).events ∧
    (adminHandle (.sendAirtime (some ADMIN_PIN) (some "MTN") (some "08011223344")
        (.success {}) 11) onlineLedger).ledger.siteState = onlineLedger.siteState ∧
    (∀ d, (ProviderResult.success {}) = .success d →
      (adminHandle (.sendAirtime (some ADMIN_PIN) (some "MTN") (some "08011223344")
          (.success {}) 11) onlineLedger).ledger.transactionHistory
        = { date := 11, network := "MTN", mobile_number := "08011223344",
            amount := 100, txStatus := "Success (Admin)" }
          :: onlineLedger.transactionHistory) ∧
    (adminHandle (.sendAirtime (some ADMIN_PIN) (some "MTN") (some "08011223344")
        (.success {}) 11)
        { siteState := offlineLedger.siteState
          transactionHistory := onlineLedger.transactionHistory }).response =
      (adminHandle (.sendAirtime (some ADMIN_PIN) (some "MTN") (some "08011223344")
        (.success {}) 11) onlineLedger).response :=
  admin_send_bypass_no_increment (some "MTN") (some "08011223344") (.success {}) 11
    onlineLedger offlineLedger.siteState (by decide) (by decide)

/-- C7: whenever the provider outcome is not a success (rejected,
unreachable, or setup failure), the ledger after the request equals the
ledger before it, on both the public and the admin send path: no record is
appended and `claimsToday`, `claimLimit`, `isOnline` keep their values. -/
theorem failed_outcome_ledger_unchanged (adminPhone apiKey : String)
    (network mobile_number : Option String) (provider : ProviderResult) (now : Nat)
    (st : Ledger) (h : ∀ d, provider ≠ .success d) :
    (sendAirtime adminPhone apiKey network mobile_number provider now st).ledger = st ∧
    (adminSendAirtime network mobile_number provider now st).ledger = st := by
  constructor
  · unfold sendAirtime
    dsimp only
    split
    · rfl
    split
    · rfl
    split
    · rfl
    split
    · rfl
    split
    · rfl
    exact runProvider_ledger_of_not_success _ _ _ _ _ _ _ h
  · unfold adminSendAirtime
    split
    · rfl
    · cases provider with
      | success d => exact absurd rfl (h d)
      | responseError sc d => rfl
      | noResponse => rfl
      | setupError => rfl

/-- Witness for C7 at a concrete unreachable-provider claim. -/
theorem failed_outcome_ledger_unchanged_witness :
    (sendAirtime defaultAdminPhone apiKeyFallback (some "Glo") (some "08098765432")
        .noResponse 7 onlineLedger).ledger = onlineLedger ∧
    (adminSendAirtime (some "Glo") (some "08098765432") .noResponse 7 onlineLedger).ledger =
      onlineLedger := by
  have h := failed_outcome_ledger_unchanged defaultAdminPhone apiKeyFallback (some "Glo")
    (some "08098765432") .noResponse 7 onlineLedger (by intro d hd; cases hd)
  exact h

/-- C10: `API_KEY` is the environment value with a hardcoded non-empty
fallback, so it is never the empty (falsy) string and the 500
server-configuration branch of `POST /send-airtime` can never fire: the
handler is extensionally equal to the same handler with the missing-API-key
check removed. -/
theorem api_key_check_unreachable (adminPhone : String) (env : Option String)
    (network mobile_number : Option String) (provider : ProviderResult) (now : Nat)
    (st : Ledger) :
    apiKeyOf env ≠ "" ∧
    sendAirtime adminPhone (apiKeyOf env) network mobile_number provider now st =
      sendAirtimeNoKeyCheck adminPhone (apiKeyOf env) network mobile_number provider now st := by
  have hk : apiKeyOf env ≠ "" := by
    cases env with
    | none => intro h; exact absurd h (by decide)
    | some s =>
      by_cases hs : s = ""
      · intro h; rw [apiKeyOf, if_pos hs] at h; exact absurd h (by decide)
      · intro h; rw [apiKeyOf, if_neg hs] at h; exact hs h
  refine ⟨hk, ?_⟩
  have hkb : (apiKeyOf env == "") = false := by
    simp only [beq_eq_false_iff_ne, ne_eq]
    exact hk
  unfold sendAirtime sendAirtimeNoKeyCheck
  simp only [hkb, Bool.false_eq_true, if_false]

/-- C9: every admin operation other than login answers a mismatched PIN with
the 403 forbidden response, leaves the ledger exactly as it was, and
performs no provider call. -/
theorem invalid_pin_forbidden_unchanged (req : AdminReq) (st : Ledger)
    (hnl : req.isLogin = false) (hpin : req.pin ≠ some ADMIN_PIN) :
    (adminHandle req st).response =
      { respStatus := 403, success := false, message := some "Invalid admin PIN." } ∧
    (adminHandle req st).ledger = st ∧
    (adminHandle req st).events = [] := by
  have hb : (req.pin == some ADMIN_PIN) = false := by
    simp only [beq_eq_false_iff_ne, ne_eq]
    exact hpin
  have h : adminHandle req st = forbiddenRes st := by
    unfold adminHandle
    rw [hnl, if_neg (by simp), hb]
    simp
  rw [h]
  exact ⟨rfl, rfl, rfl⟩

/-- Witness for C9: a toggle-site request with a wrong PIN. -/
theorem invalid_pin_forbidden_unchanged_witness :
    (adminHandle (.toggleSite (some "000000")) onlineLedger).response =
      { respStatus := 403, success := false, message := some "Invalid admin PIN." } ∧
    (adminHandle (.toggleSite (some "000000")) onlineLedger).ledger = onlineLedger ∧
    (adminHandle (.toggleSite (some "000000")) onlineLedger).events = [] :=
  invalid_pin_forbidden_unchanged (.toggleSite (some "000000")) onlineLedger (by decide)
    (by decide)

end Polsa
